import Mathlib

/-!
Formal model of `src/test_receiver.py` (EPLive test receiver).

The script binds a UDP socket, then loops: receive a datagram, print a
one-time "Connected from" line on the first packet, increment the packet
and byte counters, write the payload to the output file and flush it, and
print a progress line every 100 packets.  On `KeyboardInterrupt` it closes
the file, prints a final report with playback hints, and exits 0.

Bytes are modelled as `Nat`; a datagram is its payload together with the
sender address `(ip, port)` returned by `recvfrom`.
-/

namespace EPLive

/-- A datagram as returned by `sock.recvfrom(65535)`: payload bytes and the
originating address `(host, port)`. -/
structure Datagram where
  payload : List Nat
  addr : String × Nat
  deriving Repr, DecidableEq

/-- The output file, modelled at three layers of the I/O stack:
`buf` is the application-level (Python file object) buffer that `f.write`
appends to; `cache` is the data handed to the operating system, which
`f.flush` transfers `buf` into; `disk` is the data durably on storage,
which only an `os.fsync` (never called by the script) would transfer
`cache` into. -/
structure FileState where
  disk : List Nat
  cache : List Nat
  buf : List Nat
  deriving Repr, DecidableEq

namespace FileState

/-- Model of `f.write(data)`: append the payload to the application buffer. -/
def write (f : FileState) (d : List Nat) : FileState :=
  { f with buf := f.buf ++ d }

/-- Model of `f.flush()`: hand the application buffer to the operating system.
Python's `flush` does not force the data to durable storage. -/
def flush (f : FileState) : FileState :=
  { f with cache := f.cache ++ f.buf, buf := [] }

/-- Model of `os.fsync(f.fileno())`: force OS-cached data to durable storage.
The script never calls this; it is part of the model so that durability
claims can be stated. -/
def fsync (f : FileState) : FileState :=
  { f with disk := f.disk ++ f.cache, cache := [] }

/-- Model of `f.close()` (run by the `with open(...)` block on exit): flushes the
application buffer; it does not fsync. -/
def close (f : FileState) : FileState :=
  f.flush

/-- The file content as seen through the filesystem (what survives a
graceful process exit): data on disk plus data in the OS cache. -/
def visible (f : FileState) : List Nat :=
  f.disk ++ f.cache

/-- The file content that survives a machine crash / power loss: only the
durably stored bytes. -/
def afterCrash (f : FileState) : List Nat :=
  f.disk

/-- A freshly opened (empty) output file. -/
def empty : FileState :=
  ⟨[], [], []⟩

end FileState

/-- A console line emitted from inside the receive loop.  The startup
banner and the final report are modelled separately; the loop itself
emits only these two kinds of lines (`src/test_receiver.py` lines 39-52). -/
inductive Event where
  | connectedFrom (host : String) (port : Nat)
  | progress (packets : Nat) (totalBytes : Nat) (lastLen : Nat)
  deriving Repr, DecidableEq

/-- State of the receive loop: the two counters, the output file, and the
console lines emitted so far (in order). -/
structure LoopState where
  packet_count : Nat
  total_bytes : Nat
  file : FileState
  output : List Event
  deriving Repr, DecidableEq

/-- Loop state right after `open(output_file, 'wb')`: counters zero, file
empty, nothing emitted from the loop yet. -/
def initState : LoopState :=
  ⟨0, 0, FileState.empty, []⟩

/-- One iteration of the receive loop body for datagram `d`, translated
statement by statement from `src/test_receiver.py` lines 37-52:

1. `if packet_count == 0: print("Connected from", addr)`
2. `packet_count += 1`
3. `total_bytes += len(data)`
4. `f.write(data)`
5. `f.flush()`
6. `if packet_count % 100 == 0: print(progress line)` -/
def step (s : LoopState) (d : Datagram) : LoopState :=
  let out1 := s.output ++ (if s.packet_count = 0 then
    [Event.connectedFrom d.addr.1 d.addr.2] else [])
  let pc := s.packet_count + 1
  let tb := s.total_bytes + d.payload.length
  let f1 := (s.file.write d.payload).flush
  let out2 := out1 ++ (if pc % 100 = 0 then
    [Event.progress pc tb d.payload.length] else [])
  ⟨pc, tb, f1, out2⟩

/-- The loop body with an explicit outcome for the `f.write` call.
`writeOk = false` models `f.write` raising `OSError`: the statements that
the source executes *before* the write (the connected line and both
counter increments) have already happened, the write and everything after
it have not.  The first component records whether the iteration completed
without raising. -/
def stepChecked (s : LoopState) (d : Datagram) (writeOk : Bool) :
    Bool × LoopState :=
  let out1 := s.output ++ (if s.packet_count = 0 then
    [Event.connectedFrom d.addr.1 d.addr.2] else [])
  let pc := s.packet_count + 1
  let tb := s.total_bytes + d.payload.length
  if writeOk then
    let f1 := (s.file.write d.payload).flush
    let out2 := out1 ++ (if pc % 100 = 0 then
      [Event.progress pc tb d.payload.length] else [])
    (true, ⟨pc, tb, f1, out2⟩)
  else
    (false, ⟨pc, tb, s.file, out1⟩)

/-- Running the receive loop over the datagrams delivered before the
interrupt arrives (the interrupt is observed at the blocking `recvfrom`
call, per the loop structure of the script). -/
def runLoop (ds : List Datagram) : LoopState :=
  List.foldl step initState ds

/-- The console lines the loop emits when started with counters
`pc`/`tb`, as a function of the remaining datagrams.  Reference shape for
the output component of `step`-folds. -/
def emittedEvents (pc tb : Nat) : List Datagram → List Event
  | [] => []
  | d :: ds =>
      (if pc = 0 then [Event.connectedFrom d.addr.1 d.addr.2] else []) ++
      (if (pc + 1) % 100 = 0 then
        [Event.progress (pc + 1) (tb + d.payload.length) d.payload.length]
        else []) ++
      emittedEvents (pc + 1) (tb + d.payload.length) ds

/-- The packet number carried by a progress line, if the event is one. -/
def progressNum : Event → Option Nat
  | Event.progress p _ _ => some p
  | _ => none

/-- The address carried by a "Connected from" line, if the event is one. -/
def connAddr : Event → Option (String × Nat)
  | Event.connectedFrom h p => some (h, p)
  | _ => none

/-! ### Python `int()` parsing of the port argument -/

/-- Whitespace stripped by Python's `int(str)` conversion. -/
def isPySpace (c : Char) : Bool :=
  c = ' ' ∨ c = '\t' ∨ c = '\n' ∨ c = '\r' ∨ c = '\x0b' ∨ c = '\x0c'

/-- Digit accumulation for Python `int(...)` in base 10: after the first
digit, each following character is a digit or a single underscore that
must be followed by a digit. -/
def pyDigitsAux : List Char → Nat → Option Nat
  | [], acc => some acc
  | '_' :: c :: cs, acc =>
      if c.isDigit then pyDigitsAux cs (acc * 10 + (c.toNat - 48))
      else none
  | ['_'], _ => none
  | c :: cs, acc =>
      if c.isDigit then pyDigitsAux cs (acc * 10 + (c.toNat - 48))
      else none

/-- The digit run of Python `int(...)`: at least one digit, underscores
only between digits. -/
def pyDigits : List Char → Option Nat
  | [] => none
  | c :: cs =>
      if c.isDigit then pyDigitsAux cs (c.toNat - 48) else none

/-- Python's `int(s)` for a decimal string: strip whitespace, optional
sign, then a digit run.  Returns `none` when `int(s)` raises
`ValueError`. -/
def pyInt (s : String) : Option Int :=
  let cs := ((s.toList.dropWhile isPySpace).reverse.dropWhile isPySpace).reverse
  match cs with
  | '+' :: rest => (pyDigits rest).map Int.ofNat
  | '-' :: rest => (pyDigits rest).map (fun n => -(n : Int))
  | rest => (pyDigits rest).map Int.ofNat

/-! ### Whole-program model -/

/-- The uncaught Python exceptions the script can die with:
`ValueError` from `int(sys.argv[1])` and `OSError` from `sock.bind`. -/
inductive PyExc where
  | valueError
  | osError
  deriving Repr, DecidableEq

/-- The final summary block printed in the `except KeyboardInterrupt`
handler: total packets, total bytes (displayed scaled to MB), the output
file name, and the suggested playback command lines. -/
structure FinalReport where
  totalPackets : Nat
  totalBytes : Nat
  outputFile : String
  playbackCmds : List String
  deriving Repr, DecidableEq

/-- Observable outcome of one run of the script. -/
structure MainOutcome where
  exitCode : Nat
  socketCreated : Bool
  bindAttempted : Bool
  artifactCreated : Bool
  artifactClosed : Bool
  loopState : Option LoopState
  finalReport : Option FinalReport
  uncaught : Option PyExc
  deriving Repr, DecidableEq

/-- Name of the output artifact: `f"stream_{timestamp}.h264"`. -/
def outputFileName (ts : String) : String :=
  "stream_" ++ ts ++ ".h264"

/-- The whole script, `main()` of `src/test_receiver.py`, as a function of
its external inputs: `argv1` is `sys.argv[1]` when present, `bindOk` is
whether `sock.bind(('0.0.0.0', port))` succeeds, `ts` is the session
timestamp used to name the artifact, and `ds` are the datagrams delivered
before the operator interrupt (which is observed at the blocking
`recvfrom` call).

Control flow of the source: `int(sys.argv[1])` runs first (a `ValueError`
propagates before the socket exists); then the socket is created and
bound (a bind failure propagates before `open(output_file, 'wb')` runs);
then the receive loop runs under `try`/`with` until `KeyboardInterrupt`,
whose handler prints the final report; `finally` closes the socket and
the process exits 0.  An uncaught exception makes the interpreter print
the traceback (the cause) and exit with code 1. -/
def main (argv1 : Option String) (bindOk : Bool) (ts : String)
    (ds : List Datagram) : MainOutcome :=
  let port? : Option Int :=
    match argv1 with
    | none => some 8888
    | some a => pyInt a
  match port? with
  | none =>
      ⟨1, false, false, false, false, none, none, some PyExc.valueError⟩
  | some _ =>
      if bindOk then
        let fin := runLoop ds
        let closed : LoopState := { fin with file := fin.file.close }
        let name := outputFileName ts
        ⟨0, true, true, true, true, some closed,
          some ⟨fin.packet_count, fin.total_bytes, name,
            ["ffplay " ++ name, "vlc " ++ name]⟩,
          none⟩
      else
        ⟨1, true, true, false, false, none, none, some PyExc.osError⟩

/-! ### Fold lemmas about the receive loop -/

theorem foldl_step_packet_count (ds : List Datagram) (s : LoopState) :
    (List.foldl step s ds).packet_count = s.packet_count + ds.length := by
  induction ds generalizing s with
  | nil => simp
  | cons d ds ih =>
      simp only [List.foldl_cons, ih, step, List.length_cons]
      omega

theorem foldl_step_total_bytes (ds : List Datagram) (s : LoopState) :
    (List.foldl step s ds).total_bytes =
      s.total_bytes + (ds.map (fun d => d.payload.length)).sum := by
  induction ds generalizing s with
  | nil => simp
  | cons d ds ih =>
      simp only [List.foldl_cons, ih, step, List.map_cons, List.sum_cons]
      omega

theorem foldl_step_file (ds : List Datagram) (s : LoopState)
    (h : s.file.buf = []) :
    (List.foldl step s ds).file.disk = s.file.disk ∧
    (List.foldl step s ds).file.cache =
      s.file.cache ++ (ds.map (fun d => d.payload)).flatten ∧
    (List.foldl step s ds).file.buf = [] := by
  induction ds generalizing s with
  | nil => simpa using h
  | cons d ds ih =>
      have hstep : (step s d).file =
          ⟨s.file.disk, s.file.cache ++ d.payload, []⟩ := by
        simp [step, FileState.write, FileState.flush, h]
      obtain ⟨h1, h2, h3⟩ := ih (step s d) (by simp [hstep])
      refine ⟨?_, ?_, h3⟩
      · simpa [hstep] using h1
      · simp only [List.foldl_cons] at h2 ⊢
        simp [h2, hstep, List.append_assoc]

theorem foldl_step_output (ds : List Datagram) (s : LoopState) :
    (List.foldl step s ds).output =
      s.output ++ emittedEvents s.packet_count s.total_bytes ds := by
  induction ds generalizing s with
  | nil => simp [emittedEvents]
  | cons d ds ih =>
      simp only [List.foldl_cons, ih, emittedEvents]
      simp [step, List.append_assoc]

theorem emittedEvents_filterMap_progressNum (ds : List Datagram)
    (pc tb : Nat) :
    (emittedEvents pc tb ds).filterMap progressNum =
      (List.range' (pc + 1) ds.length).filter (fun p => p % 100 = 0) := by
  induction ds generalizing pc tb with
  | nil => simp [emittedEvents]
  | cons d ds ih =>
      simp only [emittedEvents, List.filterMap_append, ih, List.length_cons,
        List.range'_succ, List.filter_cons]
      by_cases h : (pc + 1) % 100 = 0 <;>
        simp [h, progressNum, apply_ite (List.filterMap progressNum)]

theorem emittedEvents_filterMap_connAddr_pos (ds : List Datagram)
    (pc tb : Nat) (h : 0 < pc) :
    (emittedEvents pc tb ds).filterMap connAddr = [] := by
  induction ds generalizing pc tb with
  | nil => simp [emittedEvents]
  | cons d ds ih =>
      have hne : ¬ pc = 0 := Nat.pos_iff_ne_zero.mp h
      simp only [emittedEvents, List.filterMap_append, hne, if_false]
      rw [ih (pc + 1) (tb + d.payload.length) (Nat.succ_pos pc)]
      by_cases h100 : (pc + 1) % 100 = 0 <;> simp [h100, connAddr]

theorem runLoop_output (ds : List Datagram) :
    (runLoop ds).output = emittedEvents 0 0 ds := by
  simpa [initState] using foldl_step_output ds initState

/-! ### Claim theorems -/

/-- C1: for every sequence of datagrams received by the bound socket,
after graceful shutdown the output artifact contains exactly the
concatenation of the payloads in arrival order, its byte length is the
sum of the payload lengths, and the reported packet count equals the
number of datagrams. -/
theorem C1_artifact_is_concat (ts : String) (ds : List Datagram) :
    ∃ fin rep, (main none true ts ds).loopState = some fin ∧
      (main none true ts ds).finalReport = some rep ∧
      fin.file.visible = (ds.map (fun d => d.payload)).flatten ∧
      fin.file.visible.length = (ds.map (fun d => d.payload.length)).sum ∧
      rep.totalPackets = ds.length := by
  obtain ⟨hd, hc, hb⟩ := foldl_step_file ds initState rfl
  have hpc := foldl_step_packet_count ds initState
  simp only [initState, FileState.empty] at hd hc hb hpc
  refine ⟨_, _, rfl, rfl, ?_, ?_, ?_⟩
  · simp [FileState.visible, FileState.close, FileState.flush, runLoop,
      initState, FileState.empty, hd, hc, hb]
  · simp [FileState.visible, FileState.close, FileState.flush, runLoop,
      initState, FileState.empty, hd, hc, hb, List.length_flatten,
      List.map_map, Function.comp_def]
  · simpa [initState, runLoop, FileState.empty] using hpc

/-- C2 (counterexample): the claim says the counters are updated only
after a successful append; in the code both counters are incremented
before `f.write`.  With one 3-byte datagram whose write raises, the
iteration aborts with `packet_count = 1` and `total_bytes = 3` while the
artifact is still empty — the counters do include the failed datagram. -/
theorem C2_counterexample :
    (stepChecked initState ⟨[1, 2, 3], ("192.168.1.10", 46000)⟩ false).1 = false ∧
    (stepChecked initState ⟨[1, 2, 3], ("192.168.1.10", 46000)⟩ false).2.packet_count = 1 ∧
    (stepChecked initState ⟨[1, 2, 3], ("192.168.1.10", 46000)⟩ false).2.total_bytes = 3 ∧
    (stepChecked initState ⟨[1, 2, 3], ("192.168.1.10", 46000)⟩ false).2.file.visible = [] := by
  decide

/-- C2 (amended): the statistics update is performed before the append:
when `f.write` raises, the packet counter has already been incremented
and the payload length already added to the byte counter while the file
is unchanged; when the write succeeds the iteration equals `step`. -/
theorem C2_stats_updated_before_append (s : LoopState) (d : Datagram) :
    (stepChecked s d false).1 = false ∧
    (stepChecked s d false).2.packet_count = s.packet_count + 1 ∧
    (stepChecked s d false).2.total_bytes = s.total_bytes + d.payload.length ∧
    (stepChecked s d false).2.file = s.file ∧
    stepChecked s d true = (true, step s d) := by
  simp [stepChecked, step]

/-- C3 (counterexample): after the append of a 1-byte datagram completes
(write + flush), the byte is visible through the filesystem but nothing
has been forced to durable storage (`f.flush` is not `os.fsync`), so a
crash immediately after the append loses the datagram. -/
theorem C3_counterexample :
    (runLoop [⟨[7], ("10.0.0.1", 5000)⟩]).file.visible = [7] ∧
    (runLoop [⟨[7], ("10.0.0.1", 5000)⟩]).file.afterCrash = [] := by
  decide

/-- C3 (amended): each append writes the exact payload bytes to the end
of the artifact and flushes the application buffer to the operating
system before the next receive, but does not force the write to durable
storage (the durable prefix is unchanged), so an OS crash immediately
after the append can lose the datagram. -/
theorem C3_append_exact_flushed_not_durable (s : LoopState) (d : Datagram)
    (h : s.file.buf = []) :
    (step s d).file.buf = [] ∧
    (step s d).file.visible = s.file.visible ++ d.payload ∧
    (step s d).file.disk = s.file.disk := by
  simp [step, FileState.write, FileState.flush, FileState.visible, h,
    List.append_assoc]

/-- Witness for C3's amended theorem at a concrete state and datagram. -/
theorem C3_append_exact_flushed_not_durable_witness :
    initState.file.buf = [] ∧
    ((step initState ⟨[9], ("10.0.0.1", 5000)⟩).file.buf = [] ∧
     (step initState ⟨[9], ("10.0.0.1", 5000)⟩).file.visible =
       initState.file.visible ++ [9] ∧
     (step initState ⟨[9], ("10.0.0.1", 5000)⟩).file.disk =
       initState.file.disk) :=
  ⟨rfl, C3_append_exact_flushed_not_durable initState ⟨[9], ("10.0.0.1", 5000)⟩ rfl⟩

/-- C4: counters start at zero; after the kth datagram the packet counter
equals k and the byte counter equals the sum of the first k payload
lengths; both counters are monotone along the session. -/
theorem C4_counters_invariant (ds : List Datagram) (k j : Nat)
    (hk : k ≤ ds.length) (hkj : k ≤ j) (hj : j ≤ ds.length) :
    initState.packet_count = 0 ∧ initState.total_bytes = 0 ∧
    (runLoop (ds.take k)).packet_count = k ∧
    (runLoop (ds.take k)).total_bytes =
      ((ds.take k).map (fun d => d.payload.length)).sum ∧
    (runLoop (ds.take k)).packet_count ≤ (runLoop (ds.take j)).packet_count ∧
    (runLoop (ds.take k)).total_bytes ≤ (runLoop (ds.take j)).total_bytes := by
  have hcount : ∀ m : Nat, (runLoop (ds.take m)).packet_count = min m ds.length := by
    intro m
    simpa [initState, runLoop] using foldl_step_packet_count (ds.take m) initState
  have hbytes : ∀ m : Nat, (runLoop (ds.take m)).total_bytes =
      ((ds.take m).map (fun d => d.payload.length)).sum := by
    intro m
    simpa [initState, runLoop] using foldl_step_total_bytes (ds.take m) initState
  refine ⟨rfl, rfl, ?_, hbytes k, ?_, ?_⟩
  · rw [hcount k]; omega
  · rw [hcount k, hcount j]; omega
  · rw [hbytes k, hbytes j]
    have htk : ds.take k = (ds.take j).take k := by
      rw [List.take_take, Nat.min_eq_left hkj]
    calc ((ds.take k).map (fun d => d.payload.length)).sum
        = (((ds.take j).map (fun d => d.payload.length)).take k).sum := by
          rw [htk, List.map_take]
      _ ≤ ((ds.take j).map (fun d => d.payload.length)).sum := by
          rw [← List.sum_take_add_sum_drop
            ((ds.take j).map (fun d => d.payload.length)) k]
          exact Nat.le_add_right _ _

/-- Witness for C4 with two datagrams, k = 1, j = 2. -/
theorem C4_counters_invariant_witness :
    1 ≤ ([⟨[1, 2], ("192.168.1.10", 46000)⟩,
          ⟨[3], ("192.168.1.10", 46000)⟩] : List Datagram).length ∧
    1 ≤ 2 ∧
    2 ≤ ([⟨[1, 2], ("192.168.1.10", 46000)⟩,
          ⟨[3], ("192.168.1.10", 46000)⟩] : List Datagram).length ∧
    (initState.packet_count = 0 ∧ initState.total_bytes = 0 ∧
     (runLoop (([⟨[1, 2], ("192.168.1.10", 46000)⟩,
          ⟨[3], ("192.168.1.10", 46000)⟩] : List Datagram).take 1)).packet_count = 1 ∧
     (runLoop (([⟨[1, 2], ("192.168.1.10", 46000)⟩,
          ⟨[3], ("192.168.1.10", 46000)⟩] : List Datagram).take 1)).total_bytes =
       ((([⟨[1, 2], ("192.168.1.10", 46000)⟩,
          ⟨[3], ("192.168.1.10", 46000)⟩] : List Datagram).take 1).map
            (fun d => d.payload.length)).sum ∧
     (runLoop (([⟨[1, 2], ("192.168.1.10", 46000)⟩,
          ⟨[3], ("192.168.1.10", 46000)⟩] : List Datagram).take 1)).packet_count ≤
       (runLoop (([⟨[1, 2], ("192.168.1.10", 46000)⟩,
          ⟨[3], ("192.168.1.10", 46000)⟩] : List Datagram).take 2)).packet_count ∧
     (runLoop (([⟨[1, 2], ("192.168.1.10", 46000)⟩,
          ⟨[3], ("192.168.1.10", 46000)⟩] : List Datagram).take 1)).total_bytes ≤
       (runLoop (([⟨[1, 2], ("192.168.1.10", 46000)⟩,
          ⟨[3], ("192.168.1.10", 46000)⟩] : List Datagram).take 2)).total_bytes) :=
  ⟨by decide, by decide, by decide,
    C4_counters_invariant
      [⟨[1, 2], ("192.168.1.10", 46000)⟩, ⟨[3], ("192.168.1.10", 46000)⟩]
      1 2 (by decide) (by decide) (by decide)⟩

/-- C5: the progress lines emitted during a session carry exactly the
packet numbers 1..N that are multiples of 100 — so a line is emitted on
packets 100, 200, 300, … and at no other time. -/
theorem C5_progress_every_100 (ds : List Datagram) :
    (runLoop ds).output.filterMap progressNum =
      (List.range' 1 ds.length).filter (fun p => p % 100 = 0) := by
  rw [runLoop_output, emittedEvents_filterMap_progressNum]

/-- C6: if the bind fails at startup (port in use), the process dies with
an uncaught `OSError` — the interpreter prints the cause and exits
non-zero — and no output artifact is created, since `open` runs only
after a successful bind. -/
theorem C6_bind_failure_no_artifact (a : String) (p : Int) (ts : String)
    (ds : List Datagram) (h : pyInt a = some p) :
    (main (some a) false ts ds).exitCode ≠ 0 ∧
    (main (some a) false ts ds).uncaught = some PyExc.osError ∧
    (main (some a) false ts ds).artifactCreated = false ∧
    (main (some a) false ts ds).bindAttempted = true := by
  simp [main, h]

/-- Witness for C6 at port string "8888". -/
theorem C6_bind_failure_no_artifact_witness :
    pyInt ("8888") = some 8888 ∧
    ((main (some ("8888")) false ("20251012_120000") []).exitCode ≠ 0 ∧
     (main (some ("8888")) false ("20251012_120000") []).uncaught = some PyExc.osError ∧
     (main (some ("8888")) false ("20251012_120000") []).artifactCreated = false ∧
     (main (some ("8888")) false ("20251012_120000") []).bindAttempted = true) :=
  ⟨by decide,
    C6_bind_failure_no_artifact ("8888") 8888 ("20251012_120000") [] (by decide)⟩

/-- C7: on operator interrupt the loop stops, the artifact is closed with
its application buffer flushed, the final report carries the total packet
count, the total byte count, the output file name and playback-command
hints, the process exits 0, and the artifact length equals the bytes of
exactly the datagrams appended before the interrupt. -/
theorem C7_graceful_interrupt (ts : String) (ds : List Datagram) :
    ∃ fin rep, (main none true ts ds).loopState = some fin ∧
      (main none true ts ds).finalReport = some rep ∧
      (main none true ts ds).exitCode = 0 ∧
      (main none true ts ds).artifactClosed = true ∧
      fin.file.buf = [] ∧
      rep.totalPackets = ds.length ∧
      rep.totalBytes = (ds.map (fun d => d.payload.length)).sum ∧
      rep.outputFile = outputFileName ts ∧
      rep.playbackCmds =
        ["ffplay " ++ outputFileName ts, "vlc " ++ outputFileName ts] ∧
      fin.file.visible.length = (ds.map (fun d => d.payload.length)).sum := by
  obtain ⟨hd, hc, hb⟩ := foldl_step_file ds initState rfl
  have hpc := foldl_step_packet_count ds initState
  have htb := foldl_step_total_bytes ds initState
  simp only [initState, FileState.empty] at hd hc hb hpc htb
  refine ⟨_, _, rfl, rfl, rfl, rfl, rfl, ?_, ?_, rfl, rfl, ?_⟩
  · simpa [runLoop, initState, FileState.empty] using hpc
  · simpa [runLoop, initState, FileState.empty] using htb
  · simp [FileState.visible, FileState.close, FileState.flush, runLoop,
      initState, FileState.empty, hd, hc, hb, List.length_flatten,
      List.map_map, Function.comp_def]

/-- C8: the "Connected from" line is emitted exactly once per session, on
the first received datagram, carrying the first sender's address — and
never again, however many datagrams follow and whatever their senders. -/
theorem C8_sender_reported_once (d : Datagram) (ds : List Datagram) :
    (runLoop (d :: ds)).output.filterMap connAddr = [d.addr] := by
  rw [runLoop_output]
  have hpos := emittedEvents_filterMap_connAddr_pos ds 1 d.payload.length
    Nat.one_pos
  simp [emittedEvents, List.filterMap_append, connAddr] at hpos ⊢
  exact hpos

/-- C9: an invalid port argument makes `int(sys.argv[1])` raise an
uncaught `ValueError`: the process exits non-zero before the socket is
created, before any bind, and before the output artifact exists. -/
theorem C9_invalid_port_arg (a : String) (bindOk : Bool) (ts : String)
    (ds : List Datagram) (h : pyInt a = none) :
    (main (some a) bindOk ts ds).uncaught = some PyExc.valueError ∧
    (main (some a) bindOk ts ds).exitCode ≠ 0 ∧
    (main (some a) bindOk ts ds).socketCreated = false ∧
    (main (some a) bindOk ts ds).bindAttempted = false ∧
    (main (some a) bindOk ts ds).artifactCreated = false := by
  simp [main, h]

/-- Witness for C9 at the non-numeric argument "abc". -/
theorem C9_invalid_port_arg_witness :
    pyInt ("abc") = none ∧
    ((main (some ("abc")) true ("20251012_120000") []).uncaught =
       some PyExc.valueError ∧
     (main (some ("abc")) true ("20251012_120000") []).exitCode ≠ 0 ∧
     (main (some ("abc")) true ("20251012_120000") []).socketCreated = false ∧
     (main (some ("abc")) true ("20251012_120000") []).bindAttempted = false ∧
     (main (some ("abc")) true ("20251012_120000") []).artifactCreated = false) :=
  ⟨by decide, C9_invalid_port_arg "abc" true ("20251012_120000") [] (by decide)⟩

/-- C10: a zero-length datagram is processed like any other: the packet
counter goes up by one, the byte counter and the artifact content are
unchanged, and the datagram counts toward the 100-packet progress
cadence. -/
theorem C10_zero_length_datagram (s : LoopState) (a : String × Nat)
    (h : s.file.buf = []) :
    (step s ⟨[], a⟩).packet_count = s.packet_count + 1 ∧
    (step s ⟨[], a⟩).total_bytes = s.total_bytes ∧
    (step s ⟨[], a⟩).file.visible = s.file.visible ∧
    (step s ⟨[], a⟩).output.filterMap progressNum =
      s.output.filterMap progressNum ++
        (if (s.packet_count + 1) % 100 = 0 then [s.packet_count + 1]
          else []) := by
  refine ⟨rfl, by simp [step], ?_, ?_⟩
  · simp [step, FileState.write, FileState.flush, FileState.visible, h]
  · simp only [step, List.length_nil, Nat.add_zero, List.filterMap_append]
    by_cases hc : s.packet_count = 0 <;>
      by_cases h100 : (s.packet_count + 1) % 100 = 0 <;>
        simp [hc, h100, progressNum, connAddr]

/-- Witness for C10 at the initial state. -/
theorem C10_zero_length_datagram_witness :
    initState.file.buf = [] ∧
    ((step initState ⟨[], ("10.0.0.1", 5000)⟩).packet_count =
       initState.packet_count + 1 ∧
     (step initState ⟨[], ("10.0.0.1", 5000)⟩).total_bytes =
       initState.total_bytes ∧
     (step initState ⟨[], ("10.0.0.1", 5000)⟩).file.visible =
       initState.file.visible ∧
     (step initState ⟨[], ("10.0.0.1", 5000)⟩).output.filterMap progressNum =
       initState.output.filterMap progressNum ++
         (if (initState.packet_count + 1) % 100 = 0 then
           [initState.packet_count + 1] else [])) :=
  ⟨rfl, C10_zero_length_datagram initState ("10.0.0.1", 5000) rfl⟩

end EPLive
